import Mathlib

/-!
Verification of `examples/history_vehicles_replacement_for_imitation_learning.py`
from the SMARTS repository.

The development shallowly embeds the selection-and-validation pipeline of that
example: the vehicle-window filter, the hijack selector with its Waymo
single-ego override, the episode step-cap and shared-start-time computations,
the `ReplayCheckerAgent.act` replay validator, and the episode loop guard.
Times, speeds and positions are modelled as exact rationals (`ℚ`); Python
dictionaries keyed by quantized times become association lists; the quantizer
`rounder_for_dt` (defined in `smarts.core.utils.math`, outside the embedded
file) is kept as an abstract function argument, since every property below is
insensitive to its definition; the pseudo-random `random.sample` (Python
standard library) is likewise an abstract argument, constrained only by its
documented contract.  Fallible code (Python `assert`) is modelled with
explicit error outcomes.
-/

namespace SmartsReplay

/-! ## Basic executable arithmetic helpers -/

/-- The built-in `abs` of Python on rationals, written so that the kernel can
evaluate it on literals. -/
def pyAbs (x : ℚ) : ℚ := if x < 0 then -x else x

/-- Binary maximum as computed by CPython (used inside `math.isclose` and by
`max` over a two-element comparison chain), written so that the kernel can
evaluate it on literals. -/
def pyMax (a b : ℚ) : ℚ := if a < b then b else a

/-! ## Vehicle windows and the custom filter (source lines 121-135) -/

/-- One recorded vehicle observation interval
(`TrafficHistory.TrafficHistoryVehicleWindow`): identifier, start / end time
and average speed.  Identifiers are modelled as naturals. -/
structure VehicleWindow where
  vehicle_id : ℕ
  start_time : ℚ
  end_time : ℚ
  average_speed : ℚ
deriving DecidableEq, Repr

/-- The `custom_filter` closure of `main` (source lines 123-135): keeps the
windows with `average_speed > 3` whose `start_time` lies strictly within the
`start_window = 4` band around `exists_at_or_after`.  (The logging and the
intermediate `list` materialisations have no observable effect on the
returned collection.) -/
def custom_filter (exists_at_or_after : ℚ) (vehs : List VehicleWindow) :
    List VehicleWindow :=
  let start_window : ℚ := 4
  vehs.filter (fun v =>
    decide (v.average_speed > 3) &&
    decide (pyAbs (v.start_time - exists_at_or_after) < start_window))

/-- The concrete window `{id:A, start:38, speed:5}` of the claimed scenario
(id `A` rendered as `0`; the `end_time` field is not read by the filter). -/
def windowA : VehicleWindow :=
  { vehicle_id := 0, start_time := 38, end_time := 70, average_speed := 5 }

/-- The concrete window `{id:B, start:50, speed:1}` of the claimed scenario
(id `B` rendered as `1`). -/
def windowB : VehicleWindow :=
  { vehicle_id := 1, start_time := 50, end_time := 70, average_speed := 1 }

/-! ## Episode step cap (source lines 206-211) -/

/-- The built-in `max` of Python over a non-empty list, folded left with the
first element as the accumulator; `max` of an empty list raises, modelled by
`none`. -/
def listMax : List ℚ → Option ℚ
  | [] => none
  | x :: xs => some (xs.foldl pyMax x)

/-- Source lines 206-211: the value assigned to
`agent_spec.interface.max_episode_steps`, namely
`max([vehicle_final_exit_time(veh_id) / 0.1 for veh_id in sample])`.
The divisor is the literal `0.1` from the source. -/
def maxEpisodeSteps (finalExit : ℕ → ℚ) (sample : List ℕ) : Option ℚ :=
  listMax (sample.map (fun v => finalExit v / (0.1 : ℚ)))

/-- The formula the claim states for the step cap: the maximum over the
selected vehicles of `vehicle_final_exit_time(veh_id) / dt` where `dt` is the
fixed simulation timestep.  Stated separately from `maxEpisodeSteps` so the
two can be compared. -/
def specStepCap (dt : ℚ) (finalExit : ℕ → ℚ) (sample : List ℕ) : Option ℚ :=
  listMax (sample.map (fun v => finalExit v / dt))

/-! ## Shared episode start time (source lines 212-222) -/

/-- One step of the `history_start_time` accumulation in `main` (source lines
218-222).  The Python guard is `not history_start_time or start_time <
history_start_time`; on floats, `not h` is true both when `h` is `None` and
when `h == 0.0`, so an accumulated value of `0` is treated as unset. -/
def hstStep (acc : Option ℚ) (t : ℚ) : Option ℚ :=
  match acc with
  | none => some t
  | some h => if h = 0 ∨ t < h then some t else some h

/-- Source lines 212-222: the shared `history_start_time`, folded over the
mission start times of the selected vehicles in iteration order, starting
from `None`. -/
def historyStartTime (startTimes : List ℚ) : Option ℚ :=
  startTimes.foldl hstStep none

/-! ## Hijack selection (source lines 159-166 and 185-204) -/

/-- The dataset source tag read from `scenario.traffic_history.dataset_source`.
The source only compares it for equality against the Waymo tag, so every
other tag is collapsed into one constructor. -/
inductive DatasetSource where
  | Waymo : DatasetSource
  | other : DatasetSource
deriving DecidableEq, Repr

/-- Source lines 159-166: `k = vehicles_to_replace`, clamped down to the
number of available vehicle missions with a warning when it exceeds it. -/
def clampK (vehicles_to_replace numMissions : ℕ) : ℕ :=
  if vehicles_to_replace > numMissions then numMissions else vehicles_to_replace

/-- Source lines 185-204: per-episode selection of the vehicles to hijack.
For a Waymo dataset that names an ego vehicle, the sample is exactly that
vehicle and `assert k == 1` guards the configuration (modelled as
`Except.error`).  Otherwise (including a Waymo dataset with no ego id, which
only logs a warning) the sample is `random.sample(veh_missions.keys(), k)`,
modelled by the abstract `sampler` argument. -/
def selectSample (src : DatasetSource) (egoId : Option ℕ) (k : ℕ)
    (vehKeys : List ℕ) (sampler : List ℕ → ℕ → List ℕ) :
    Except Unit (List ℕ) :=
  match src, egoId with
  | DatasetSource.Waymo, some ego =>
      if k = 1 then Except.ok [ego] else Except.error ()
  | DatasetSource.Waymo, none => Except.ok (sampler vehKeys k)
  | DatasetSource.other, _ => Except.ok (sampler vehKeys k)

/-- A concrete deterministic sampler satisfying the documented contract of
`random.sample` (distinct elements drawn from the population): take the first
`n` elements. -/
def takeSampler : List ℕ → ℕ → List ℕ := fun l n => l.take n

/-! ## The replay-checking agent (source lines 28-84) -/

/-- One record of the pickled data series: the state recorded at a quantized
timestamp together with the control input recorded there. -/
structure DataRecord where
  heading : ℚ
  speed : ℚ
  egoPosX : ℚ
  egoPosY : ℚ
  acceleration : ℚ
  angular_velocity : ℚ
deriving DecidableEq, Repr

/-- The live `obs.ego_vehicle_state` fields read by `act`. -/
structure EgoVehicleState where
  heading : ℚ
  speed : ℚ
  posX : ℚ
  posY : ℚ
deriving DecidableEq, Repr

/-- The observation fields read by `act`: elapsed simulation time and the ego
vehicle state. -/
structure SimObservation where
  elapsed_sim_time : ℚ
  ego_vehicle_state : EgoVehicleState
deriving DecidableEq, Repr

/-- The state of a `ReplayCheckerAgent`: the fixed timestep handed to the
constructor, the quantizer produced by `rounder_for_dt` (kept abstract), the
time offset bound by `load_data_for_vehicle`, and the loaded data series
(`none` before `load_data_for_vehicle` ran; Python dictionaries become
association lists). -/
structure ReplayCheckerAgent where
  fixed_timestep_sec : ℚ
  rounder : ℚ → ℚ
  time_offset : ℚ
  data : Option (List (ℚ × DataRecord))

/-- The default `rel_tol` of `math.isclose`, `1e-9`. -/
def relTolDefault : ℚ := 1 / 1000000000

/-- `math.isclose(a, b, abs_tol=absTol)` with the default relative tolerance:
`abs(a-b) <= max(rel_tol * max(abs(a), abs(b)), abs_tol)`. -/
def isclose (a b absTol : ℚ) : Bool :=
  decide (pyAbs (a - b) ≤
    pyMax (relTolDefault * pyMax (pyAbs a) (pyAbs b)) absTol)

/-- Python `dict.get` on the loaded series: first (and only) entry with the
given key, if any. -/
def lookupRec (d : List (ℚ × DataRecord)) (t : ℚ) : Option DataRecord :=
  match d.find? (fun p => decide (p.1 = t)) with
  | none => none
  | some p => some p.2

/-- Outcome of one `act` call: either an `AssertionError` (from
`assert self._data` or from a failed tolerance check) or the returned
`(acceleration, angular_velocity)` control pair. -/
inductive ActOutcome where
  | assertionError : ActOutcome
  | control : ℚ → ℚ → ActOutcome
deriving DecidableEq, Repr

/-- The four sequential tolerance assertions of `act` (source lines 65-79):
heading within `1e-2`, speed within `0.2`, each position component within
`2`, all via `math.isclose` with those absolute tolerances. -/
def tolerancesOk (cur : EgoVehicleState) (rec : DataRecord) : Bool :=
  isclose cur.heading rec.heading (1 / 100) &&
  isclose cur.speed rec.speed (1 / 5) &&
  isclose cur.posX rec.egoPosX 2 &&
  isclose cur.posY rec.egoPosY 2

/-- `ReplayCheckerAgent.act` (source lines 54-84).  `assert self._data`
fails when the series was never loaded or deserialised to an empty mapping
(both falsy in Python).  A missing record at the quantized observation time
returns the neutral `(0.0, 0.0)`.  Otherwise the tolerance assertions run,
and on success the control input stored at the next-tick key is returned,
defaulting to the neutral record with acceleration 0 and angular velocity
0 (the literal default dictionary of the source). -/
def act (ag : ReplayCheckerAgent) (obs : SimObservation) : ActOutcome :=
  match ag.data with
  | none => ActOutcome.assertionError
  | some d =>
    if d.isEmpty then ActOutcome.assertionError
    else
      match lookupRec d (ag.rounder (obs.elapsed_sim_time + ag.time_offset)) with
      | none => ActOutcome.control 0 0
      | some rec =>
        if tolerancesOk obs.ego_vehicle_state rec then
          match lookupRec d
              (ag.rounder (ag.rounder (obs.elapsed_sim_time + ag.time_offset) +
                ag.fixed_timestep_sec)) with
          | none => ActOutcome.control 0 0
          | some nxt => ActOutcome.control nxt.acceleration nxt.angular_velocity
        else ActOutcome.assertionError

/-! ## Episode loop guard (source lines 249-259) -/

/-- The loop guard `all(done for done in dones.values())` over the done map
(modelled as an association list from agent ids to flags). -/
def allDone (dones : List (ℕ × Bool)) : Bool := dones.all (fun p => p.2)

/-- The episode loop of `main` (source lines 249-259), fuelled: while not all
done flags are true, apply one iteration of the loop body (action gathering
plus `smarts.step`, abstracted as `stepFn` since the step itself is external)
and continue.  `getDones` projects the current done map out of the loop
state. -/
def runLoop {σ : Type} (stepFn : σ → σ) (getDones : σ → List (ℕ × Bool)) :
    ℕ → σ → σ
  | 0, s => s
  | n + 1, s =>
      if allDone (getDones s) then s else runLoop stepFn getDones n (stepFn s)

/-- A loop body that marks every agent done, used to instantiate the loop
guard property. -/
def doneStep : List (ℕ × Bool) → List (ℕ × Bool) :=
  fun s => s.map (fun p => (p.1, true))

/-! ## Concrete instances used by witnesses and counterexamples -/

/-- The identity quantizer, a concrete instance of the abstract rounder. -/
def idRounder : ℚ → ℚ := fun t => t

/-- A recorded data record at the origin with a nonzero control input. -/
def recZero : DataRecord :=
  { heading := 0, speed := 0, egoPosX := 0, egoPosY := 0,
    acceleration := 1 / 2, angular_velocity := 1 / 4 }

/-- A recorded data record holding the next-tick control input `(0.7, -0.3)`. -/
def recNext : DataRecord :=
  { heading := 0, speed := 0, egoPosX := 0, egoPosY := 0,
    acceleration := 7 / 10, angular_velocity := -(3 / 10) }

/-- A live state at the origin. -/
def stateZero : EgoVehicleState := { heading := 0, speed := 0, posX := 0, posY := 0 }

/-- An observation at elapsed time 1 with the live state at the origin. -/
def plainObs : SimObservation := { elapsed_sim_time := 1, ego_vehicle_state := stateZero }

/-- An agent whose series has no record at the (identity-quantized)
observation time 1: its only key is 5. -/
def gapAgent : ReplayCheckerAgent :=
  { fixed_timestep_sec := 1 / 10, rounder := idRounder, time_offset := 0,
    data := some [(5, recZero)] }

/-- An agent whose series has a record at key 1 only. -/
def tailAgent : ReplayCheckerAgent :=
  { fixed_timestep_sec := 1 / 10, rounder := idRounder, time_offset := 0,
    data := some [(1, recZero)] }

/-- An observation whose live state sits exactly at the tolerance limits
relative to `recZero`: heading differs by exactly `1e-2`, speed by exactly
`0.2`, each position component by exactly `2`. -/
def limitObs : SimObservation :=
  { elapsed_sim_time := 1,
    ego_vehicle_state := { heading := 1 / 100, speed := 1 / 5, posX := 2, posY := 2 } }

/-- A recorded record with a huge heading value, at which the default
relative tolerance of `math.isclose` dominates the absolute one. -/
def farRec : DataRecord :=
  { heading := 100000000, speed := 0, egoPosX := 0, egoPosY := 0,
    acceleration := 0, angular_velocity := 0 }

/-- An agent whose series maps key 1 to `farRec`. -/
def farAgent : ReplayCheckerAgent :=
  { fixed_timestep_sec := 1 / 10, rounder := idRounder, time_offset := 0,
    data := some [(1, farRec)] }

/-- An observation whose live heading differs from `farRec` by `1/50`, which
exceeds the absolute tolerance `1e-2` but not the relative one. -/
def farObs : SimObservation :=
  { elapsed_sim_time := 1,
    ego_vehicle_state :=
      { heading := 100000000 + 1 / 50, speed := 0, posX := 0, posY := 0 } }

/-- An agent whose series has records at key 1 and at the next-tick key
`1 + 1/10`. -/
def nextAgent : ReplayCheckerAgent :=
  { fixed_timestep_sec := 1 / 10, rounder := idRounder, time_offset := 0,
    data := some [(1, recZero), (11 / 10, recNext)] }

/-- An agent on which `load_data_for_vehicle` never ran. -/
def unloadedAgent : ReplayCheckerAgent :=
  { fixed_timestep_sec := 1 / 10, rounder := idRounder, time_offset := 0,
    data := none }

/-- An agent whose loaded mapping is empty (falsy in Python). -/
def emptyAgent : ReplayCheckerAgent :=
  { fixed_timestep_sec := 1 / 10, rounder := idRounder, time_offset := 0,
    data := some [] }

/-! ## Helper lemmas -/

theorem pyAbs_eq_abs (x : ℚ) : pyAbs x = |x| := by
  unfold pyAbs
  split
  · exact (abs_of_neg (by assumption)).symm
  · exact (abs_of_nonneg (le_of_not_lt (by assumption))).symm

theorem pyMax_eq_max (a b : ℚ) : pyMax a b = max a b := by
  unfold pyMax
  split
  · exact (max_eq_right (le_of_lt (by assumption))).symm
  · exact (max_eq_left (le_of_not_lt (by assumption))).symm

/-! ## The claims -/

/-- Claim C3: for every input collection of vehicle windows and every value of
`exists_at_or_after`, `custom_filter` returns exactly the windows `v` with
`v.average_speed > 3` and `|v.start_time - exists_at_or_after| < 4`; in
particular, on `[windowA, windowB]` with `exists_at_or_after = 40` the output
contains `windowA` and not `windowB`. -/
theorem custom_filter_spec :
    (∀ (e : ℚ) (vehs : List VehicleWindow) (v : VehicleWindow),
      v ∈ custom_filter e vehs ↔
        v ∈ vehs ∧ v.average_speed > 3 ∧ |v.start_time - e| < 4) ∧
    windowA ∈ custom_filter 40 [windowA, windowB] ∧
    windowB ∉ custom_filter 40 [windowA, windowB] := by
  refine ⟨fun e vehs v => ?_, ?_, ?_⟩
  · simp [custom_filter, List.mem_filter, pyAbs_eq_abs, and_assoc]
  · norm_num [custom_filter, windowA, windowB, pyAbs]
  · norm_num [custom_filter, windowA, windowB, pyAbs]

/-- Witness for C3: the characterisation applied at the concrete band
`e = 40`, collection `[windowA, windowB]` and window `windowA`, discharging
the membership criteria by evaluation. -/
theorem custom_filter_spec_witness :
    windowA ∈ custom_filter 40 [windowA, windowB] :=
  (custom_filter_spec.1 40 [windowA, windowB] windowA).mpr
    ⟨by norm_num, by norm_num [windowA], by norm_num [windowA, abs_lt]⟩

/-- Counterexample for C1: with one selected vehicle whose final exit time is
10 and a timestep `dt = 1/5`, the source computes `10 / 0.1 = 100` steps while
the claimed formula `vehicle_final_exit_time / dt` gives `10 / (1/5) = 50`;
the claim fails because the divisor in the source is the literal `0.1`, not
`dt`. -/
theorem maxEpisodeSteps_dt_cex :
    maxEpisodeSteps (fun _ => 10) [0] = some 100 ∧
    specStepCap (1 / 5) (fun _ => 10) [0] = some 50 ∧
    maxEpisodeSteps (fun _ => 10) [0] ≠ specStepCap (1 / 5) (fun _ => 10) [0] := by
  refine ⟨?_, ?_, ?_⟩ <;> norm_num [maxEpisodeSteps, specStepCap, listMax]

/-- Claim C1 (amended): the shared episode step cap equals the maximum, over
the selected vehicle identifiers, of `vehicle_final_exit_time(vehicle_id)`
divided by the constant `0.1`; this coincides with the claimed formula
exactly when the simulation timestep is `dt = 0.1`. -/
theorem maxEpisodeSteps_amended (finalExit : ℕ → ℚ) (sample : List ℕ) :
    maxEpisodeSteps finalExit sample = specStepCap (1 / 10) finalExit sample := by
  unfold maxEpisodeSteps specStepCap
  norm_num

/-- Claim C2 (code bug): the `history_start_time` accumulation treats an
accumulated value of `0` as unset (`not history_start_time` is true for
`0.0`), so with mission start times iterated in the order `[0, 5]` the code
produces `5` even though the minimum — which the spec states, and which the
surrounding code (the `None` initialisation and the strict-less-than
comparison) clearly intends — is `0`. -/
theorem historyStartTime_zero_bug :
    historyStartTime [0, 5] = some 5 ∧
    (0 : ℚ) ∈ [(0 : ℚ), 5] ∧ (∀ t ∈ [(0 : ℚ), 5], (0 : ℚ) ≤ t) ∧
    (5 : ℚ) ≠ 0 := by
  refine ⟨?_, by norm_num, by norm_num, by norm_num⟩
  norm_num [historyStartTime, hstStep]

/-- Claim C4: when the dataset source is Waymo and a distinguished ego
vehicle identifier is present, selection fails with the configuration
assertion exactly when `k` is not 1, and otherwise produces the singleton
sample holding that ego identifier; the outcome never depends on the random
sampler. -/
theorem selectSample_waymo_override (ego k : ℕ) (keys : List ℕ)
    (s1 s2 : List ℕ → ℕ → List ℕ) :
    (k ≠ 1 →
      selectSample DatasetSource.Waymo (some ego) k keys s1 = Except.error ()) ∧
    (k = 1 →
      selectSample DatasetSource.Waymo (some ego) k keys s1 = Except.ok [ego]) ∧
    selectSample DatasetSource.Waymo (some ego) k keys s1 =
      selectSample DatasetSource.Waymo (some ego) k keys s2 := by
  refine ⟨fun h => ?_, fun h => ?_, ?_⟩
  · simp [selectSample, h]
  · simp [selectSample, h]
  · by_cases h : k = 1 <;> simp [selectSample, h]

/-- Witness for C4: with ego identifier 7, requesting `k = 2` fails the
assertion and requesting `k = 1` selects exactly `{7}`. -/
theorem selectSample_waymo_override_witness :
    selectSample DatasetSource.Waymo (some 7) 2 [1, 2] takeSampler =
      Except.error () ∧
    selectSample DatasetSource.Waymo (some 7) 1 [1, 2] takeSampler =
      Except.ok [7] :=
  ⟨(selectSample_waymo_override 7 2 [1, 2] takeSampler takeSampler).1
      (by norm_num),
   (selectSample_waymo_override 7 1 [1, 2] takeSampler takeSampler).2.1 rfl⟩

/-- Claim C5: with a non-empty admissible key set, a positive requested count
and no single-ego override, selection succeeds with a duplicate-free sample
drawn from the admissible keys whose size is `min(k, number of admissible
missions)` — the count is clamped rather than failing — provided the sampler
meets the documented contract of `random.sample` (distinct elements of the
population, of the requested size). -/
theorem selectSample_no_replacement (src : DatasetSource) (egoId : Option ℕ)
    (vtr : ℕ) (keys : List ℕ) (sampler : List ℕ → ℕ → List ℕ)
    (_hkeys : keys ≠ []) (_hvtr : 0 < vtr)
    (hnoov : src = DatasetSource.other ∨ egoId = none)
    (hsampler : ∀ n, n ≤ keys.length →
      (sampler keys n).Nodup ∧ (sampler keys n).length = n ∧
      ∀ x ∈ sampler keys n, x ∈ keys) :
    ∃ out,
      selectSample src egoId (clampK vtr keys.length) keys sampler =
        Except.ok out ∧
      out.Nodup ∧ out.length = min vtr keys.length ∧ ∀ x ∈ out, x ∈ keys := by
  have hk : clampK vtr keys.length = min vtr keys.length := by
    unfold clampK
    split <;> omega
  have hle : clampK vtr keys.length ≤ keys.length := by
    rw [hk]
    omega
  obtain ⟨h1, h2, h3⟩ := hsampler _ hle
  refine ⟨sampler keys (clampK vtr keys.length), ?_, h1, by rw [h2, hk], h3⟩
  rcases hnoov with h | h
  · subst h
    rfl
  · subst h
    cases src <;> rfl

/-- Witness for C5: three admissible keys, requested count 2, a non-Waymo
dataset and the take-first sampler give the duplicate-free sample `[3, 4]`
of size `min 2 3 = 2`. -/
theorem selectSample_no_replacement_witness :
    ∃ out,
      selectSample DatasetSource.other none (clampK 2 [3, 4, 5].length)
        [3, 4, 5] takeSampler = Except.ok out ∧
      out.Nodup ∧ out.length = min 2 [3, 4, 5].length ∧
      ∀ x ∈ out, x ∈ [3, 4, 5] := by
  refine selectSample_no_replacement DatasetSource.other none 2 [3, 4, 5]
    takeSampler (by simp) (by norm_num) (Or.inl rfl) ?_
  intro n hn
  simp only [List.length_cons, List.length_nil] at hn
  interval_cases n <;> exact ⟨by decide, by decide, by decide⟩

/-- Claim C6: whenever the loaded series is non-empty but holds no record at
the quantized observation time (elapsed time plus time offset, rounded),
`act` returns the neutral control input `(0.0, 0.0)` — in particular it does
not raise the tolerance assertion. -/
theorem act_gap_neutral (ag : ReplayCheckerAgent) (obs : SimObservation)
    (d : List (ℚ × DataRecord)) (hd : ag.data = some d) (hne : d ≠ [])
    (hmiss : lookupRec d (ag.rounder (obs.elapsed_sim_time + ag.time_offset)) =
      none) :
    act ag obs = ActOutcome.control 0 0 := by
  obtain ⟨x, xs, rfl⟩ := List.exists_cons_of_ne_nil hne
  simp [act, hd, hmiss]

/-- Witness for C6: an agent whose only record is at key 5, observed at
elapsed time 1 with zero offset, returns `(0, 0)`. -/
theorem act_gap_neutral_witness : act gapAgent plainObs = ActOutcome.control 0 0 := by
  refine act_gap_neutral gapAgent plainObs [(5, recZero)] rfl (by simp) ?_
  norm_num [lookupRec, List.find?, gapAgent, plainObs, idRounder]

/-- Counterexample for C7: the claim says the desynchronization assertion is
raised for every live state whose heading differs from the recorded heading
by more than `1e-2`, but `math.isclose` keeps its default relative tolerance
`1e-9`; at heading magnitude `1e8` a difference of `1/50 > 1e-2` is still
accepted and `act` returns a control value instead of raising. -/
theorem act_tolerance_cex :
    pyAbs (farObs.ego_vehicle_state.heading - farRec.heading) > 1 / 100 ∧
    farAgent.data = some [(1, farRec)] ∧
    lookupRec [(1, farRec)]
      (farAgent.rounder (farObs.elapsed_sim_time + farAgent.time_offset)) =
      some farRec ∧
    act farAgent farObs = ActOutcome.control 0 0 := by
  refine ⟨?_, rfl, ?_, ?_⟩
  · norm_num [farObs, farRec, pyAbs]
  · norm_num [lookupRec, List.find?, farAgent, farObs, idRounder]
  · norm_num [act, lookupRec, List.find?, farAgent, farObs, farRec, idRounder,
      tolerancesOk, isclose, pyAbs, pyMax, relTolDefault]

/-- Claim C7 (amended): with a record present at the quantized observation
time, `act` avoids the desynchronization assertion exactly when every one of
the four quantities (heading, speed, both position components) differs from
its recorded value by at most `max(1e-9 * max(|live|, |recorded|), absTol)`
with the absolute tolerances `1e-2`, `0.2`, `2`, `2` — the `math.isclose`
bound with its default relative tolerance.  In particular a live state
exactly at the absolute tolerance limits is accepted, and beyond-limit states
raise the assertion only while the relative term does not dominate. -/
theorem act_tolerance_iff (ag : ReplayCheckerAgent) (obs : SimObservation)
    (d : List (ℚ × DataRecord)) (rec : DataRecord)
    (hd : ag.data = some d) (hne : d ≠ [])
    (hhit : lookupRec d (ag.rounder (obs.elapsed_sim_time + ag.time_offset)) =
      some rec) :
    act ag obs ≠ ActOutcome.assertionError ↔
      (pyAbs (obs.ego_vehicle_state.heading - rec.heading) ≤
        pyMax (relTolDefault *
          pyMax (pyAbs obs.ego_vehicle_state.heading) (pyAbs rec.heading))
          (1 / 100) ∧
      pyAbs (obs.ego_vehicle_state.speed - rec.speed) ≤
        pyMax (relTolDefault *
          pyMax (pyAbs obs.ego_vehicle_state.speed) (pyAbs rec.speed))
          (1 / 5) ∧
      pyAbs (obs.ego_vehicle_state.posX - rec.egoPosX) ≤
        pyMax (relTolDefault *
          pyMax (pyAbs obs.ego_vehicle_state.posX) (pyAbs rec.egoPosX)) 2 ∧
      pyAbs (obs.ego_vehicle_state.posY - rec.egoPosY) ≤
        pyMax (relTolDefault *
          pyMax (pyAbs obs.ego_vehicle_state.posY) (pyAbs rec.egoPosY)) 2) := by
  obtain ⟨x, xs, rfl⟩ := List.exists_cons_of_ne_nil hne
  simp only [act, hd, hhit, List.isEmpty_cons, Bool.false_eq_true, if_false]
  by_cases hok : tolerancesOk obs.ego_vehicle_state rec = true
  · have hconds := hok
    simp only [tolerancesOk, isclose, Bool.and_eq_true, decide_eq_true_eq] at hconds
    constructor
    · intro _
      exact ⟨hconds.1.1.1, hconds.1.1.2, hconds.1.2, hconds.2⟩
    · intro _
      simp only [hok, if_true]
      cases hnxt : lookupRec (x :: xs)
          (ag.rounder (ag.rounder (obs.elapsed_sim_time + ag.time_offset) +
            ag.fixed_timestep_sec)) <;> simp
  · constructor
    · intro hcontra
      simp only [if_neg hok] at hcontra
      exact absurd rfl hcontra
    · intro hconds
      exfalso
      apply hok
      simp only [tolerancesOk, isclose, Bool.and_eq_true, decide_eq_true_eq]
      exact ⟨⟨⟨hconds.1, hconds.2.1⟩, hconds.2.2.1⟩, hconds.2.2.2⟩

/-- Witness for C7 (amended): a live state differing from the recorded one by
exactly `1e-2` in heading, `0.2` in speed and `2` in each position component
is accepted — `act` does not raise the assertion. -/
theorem act_tolerance_iff_witness :
    act tailAgent limitObs ≠ ActOutcome.assertionError := by
  refine (act_tolerance_iff tailAgent limitObs [(1, recZero)] recZero rfl
    (by simp) ?_).mpr ?_
  · norm_num [lookupRec, List.find?, tailAgent, limitObs, idRounder]
  · norm_num [limitObs, recZero, pyAbs, pyMax, relTolDefault]

/-- Claim C8: for an observation that passes the tolerance checks, `act`
returns the `(acceleration, angular_velocity)` pair stored at the next-tick
key `quantize(obs_time + dt)` when that key is present, and the neutral
`(0, 0)` when it is absent. -/
theorem act_next_control (ag : ReplayCheckerAgent) (obs : SimObservation)
    (d : List (ℚ × DataRecord)) (rec : DataRecord)
    (hd : ag.data = some d) (hne : d ≠ [])
    (hhit : lookupRec d (ag.rounder (obs.elapsed_sim_time + ag.time_offset)) =
      some rec)
    (hok : tolerancesOk obs.ego_vehicle_state rec = true) :
    (∀ nxt,
      lookupRec d (ag.rounder (ag.rounder (obs.elapsed_sim_time + ag.time_offset) +
        ag.fixed_timestep_sec)) = some nxt →
      act ag obs = ActOutcome.control nxt.acceleration nxt.angular_velocity) ∧
    (lookupRec d (ag.rounder (ag.rounder (obs.elapsed_sim_time + ag.time_offset) +
        ag.fixed_timestep_sec)) = none →
      act ag obs = ActOutcome.control 0 0) := by
  obtain ⟨x, xs, rfl⟩ := List.exists_cons_of_ne_nil hne
  constructor
  · intro nxt hnxt
    simp [act, hd, hhit, hok, hnxt]
  · intro hnxt
    simp [act, hd, hhit, hok, hnxt]

/-- Witness for C8: with records at keys 1 and `11/10` and timestep `1/10`,
the observation at time 1 returns the pair stored at `11/10`, namely
`(7/10, -3/10)`; with the record at key 1 only, the same observation returns
`(0, 0)`. -/
theorem act_next_control_witness :
    act nextAgent plainObs = ActOutcome.control (7 / 10) (-(3 / 10)) ∧
    act tailAgent plainObs = ActOutcome.control 0 0 := by
  constructor
  · exact (act_next_control nextAgent plainObs [(1, recZero), (11 / 10, recNext)]
      recZero rfl (by simp)
      (by norm_num [lookupRec, List.find?, nextAgent, plainObs, idRounder])
      (by norm_num [tolerancesOk, isclose, plainObs, stateZero, recZero, pyAbs,
        pyMax, relTolDefault])).1 recNext
      (by norm_num [lookupRec, List.find?, nextAgent, plainObs, idRounder])
  · exact (act_next_control tailAgent plainObs [(1, recZero)]
      recZero rfl (by simp)
      (by norm_num [lookupRec, List.find?, tailAgent, plainObs, idRounder])
      (by norm_num [tolerancesOk, isclose, plainObs, stateZero, recZero, pyAbs,
        pyMax, relTolDefault])).2
      (by norm_num [lookupRec, List.find?, tailAgent, plainObs, idRounder])

/-- Claim C9: for any loop body and any fuel, the episode loop runs another
iteration exactly when at least one done flag in the current done map is
false, and it stops at the current state once every done flag is true. -/
theorem runLoop_guard {σ : Type} (stepFn : σ → σ)
    (getDones : σ → List (ℕ × Bool)) (n : ℕ) (s : σ) :
    ((∃ p ∈ getDones s, p.2 = false) →
      runLoop stepFn getDones (n + 1) s = runLoop stepFn getDones n (stepFn s)) ∧
    ((∀ p ∈ getDones s, p.2 = true) →
      runLoop stepFn getDones (n + 1) s = s) := by
  constructor
  · rintro ⟨p, hp, hfalse⟩
    have hguard : allDone (getDones s) = false := by
      simp only [allDone, List.all_eq_false]
      exact ⟨p, hp, by simp [hfalse]⟩
    simp [runLoop, hguard]
  · intro h
    have hguard : allDone (getDones s) = true := by
      simp only [allDone, List.all_eq_true]
      exact h
    simp [runLoop, hguard]

/-- Witness for C9: with one agent not yet done the loop takes another
iteration, and with every agent done it stops immediately. -/
theorem runLoop_guard_witness :
    runLoop doneStep id 1 [(0, false)] =
      runLoop doneStep id 0 (doneStep [(0, false)]) ∧
    runLoop doneStep id 1 [(0, true)] = [(0, true)] :=
  ⟨(runLoop_guard doneStep id 0 [(0, false)]).1 ⟨(0, false), by simp, rfl⟩,
   (runLoop_guard doneStep id 0 [(0, true)]).2 (by simp)⟩

/-- Claim C10: calling `act` before `load_data_for_vehicle` populated the
series, or with an empty loaded mapping, raises the `assert self._data`
assertion rather than returning a neutral control input; the neutral
fallback applies only to per-key misses inside a non-empty series. -/
theorem act_unloaded_asserts (ag : ReplayCheckerAgent) (obs : SimObservation)
    (h : ag.data = none ∨ ag.data = some []) :
    act ag obs = ActOutcome.assertionError := by
  rcases h with h | h <;> simp [act, h]

/-- Witness for C10: both the never-loaded agent and the empty-mapping agent
raise the assertion on any observation. -/
theorem act_unloaded_asserts_witness :
    act unloadedAgent plainObs = ActOutcome.assertionError ∧
    act emptyAgent plainObs = ActOutcome.assertionError :=
  ⟨act_unloaded_asserts unloadedAgent plainObs (Or.inl rfl),
   act_unloaded_asserts emptyAgent plainObs (Or.inr rfl)⟩

end SmartsReplay
